import Mathlib

/-!
Verification development for a small Express HTTP backend (src/server.js):
CRUD over a mongoose `Usuario` collection plus pass-through S3 bucket/object
operations.  Each route handler is embedded as a pure function from the
outcome of its single collaborator call to a trace of actions (log events,
HTTP responses, store calls), mirroring the source's control flow; the
mongoose and S3 store operations are modelled as explicit state transformers.
-/

/-- A request's context as used by the logger: method and path. -/
structure Request where
  method : String
  path : String
deriving Repr, DecidableEq

/-- A log event as produced by logInfo / logError: level, message, optional
request context, and (for errors) optional underlying error detail. -/
inductive LogEvent where
  | info (msg : String) (ctx : Option Request)
  | error (msg : String) (ctx : Option Request) (detail : Option String)
deriving Repr, DecidableEq

/-- JSON-ish values: what res.json serializes. -/
inductive Jval where
  | str (s : String)
  | num (n : Nat)
  | arr (xs : List Jval)
  | obj (fs : List (String × Jval))

/-- A response body: res.json sends JSON, res.send with a string sends
plain text (Express sets a text content type for string arguments). -/
inductive Body where
  | json (v : Jval)
  | text (s : String)

/-- Whether a body is JSON. -/
def Body.isJson : Body → Bool
  | .json _ => true
  | .text _ => false

/-- An HTTP response: one status code and one body. -/
structure HttpResponse where
  status : Nat
  body : Body

/-- The parameter object built for s3.upload: Bucket, Key, Body bytes,
ContentType. -/
structure UploadParams where
  bucket : String
  key : String
  bytes : List Nat
  contentType : String

/-- One observable step of a handler: a logger call, a terminal response
being sent, or (for the upload route, whose store call is conditional)
the s3.upload invocation with its parameters. -/
inductive HAction where
  | log (e : LogEvent)
  | respond (r : HttpResponse)
  | uploadCall (p : UploadParams)

/-- The responses sent in a trace, in order. -/
def responsesOf (t : List HAction) : List HttpResponse :=
  t.filterMap fun a => match a with | .respond r => some r | _ => none

/-- The statuses of the responses sent in a trace. -/
def statusesOf (t : List HAction) : List Nat :=
  (responsesOf t).map (·.status)

/-- The s3.upload calls recorded in a trace. -/
def uploadCallsOf (t : List HAction) : List UploadParams :=
  t.filterMap fun a => match a with | .uploadCall p => some p | _ => none

/-- The body `res.status(s).json({ error: msg })` produces. -/
def errBody (msg : String) : Body :=
  .json (.obj [("error", .str msg)])

/-! ## Document store model (mongoose `Usuario` collection) -/

/-- A stored user document: store-assigned `_id` plus the two schema fields
`nome` and `email`, both optional (the schema marks neither as required). -/
structure StoredUser where
  id : String
  nome : Option String
  email : Option String
deriving Repr, DecidableEq

/-- The user collection. -/
abbrev DocStore := List StoredUser

/-- Hex digit test, for ObjectId syntax. -/
def isHexChar (c : Char) : Bool :=
  c.isDigit || ('a' ≤ c && c ≤ 'f') || ('A' ≤ c && c ≤ 'F')

/-- Syntactic validity of a store identifier (a 24-hex-char ObjectId);
mongoose casts route ids to ObjectId and throws a CastError on failure. -/
def isValidObjectId (s : String) : Bool :=
  s.length == 24 && s.toList.all isHexChar

/-- A request body for the user routes, as the schema sees it: the two
declared fields, plus any extra fields the caller supplied (which the
schema discards). -/
structure UserBody where
  nome : Option String
  email : Option String
  extra : List (String × String)
deriving Repr, DecidableEq

/-- `new User(req.body)` with a store-assigned id: only the schema fields
nome and email are kept; extra fields are discarded. -/
def newUser (b : UserBody) (newId : String) : StoredUser :=
  { id := newId, nome := b.nome, email := b.email }

/-- Mongoose JSON serialization of a user document: `_id` always present,
schema fields present only when set. -/
def StoredUser.toJval (u : StoredUser) : Jval :=
  .obj ([("_id", Jval.str u.id)]
    ++ (match u.nome with | some n => [("nome", Jval.str n)] | none => [])
    ++ (match u.email with | some e => [("email", Jval.str e)] | none => []))

/-- `User.findById(id)`: CastError on a malformed id, otherwise the first
document with that id (or none). -/
def findById (db : DocStore) (id : String) : Except String (Option StoredUser) :=
  if isValidObjectId id then .ok (db.find? (fun u => u.id == id))
  else .error ("CastError: " ++ id)

/-- Overwrite only the fields supplied in the body, keeping the rest. -/
def applyUpdate (b : UserBody) (u : StoredUser) : StoredUser :=
  { u with
    nome := match b.nome with | some n => some n | none => u.nome,
    email := match b.email with | some e => some e | none => u.email }

/-- `User.findByIdAndUpdate(id, body, { new: true })`: CastError on a
malformed id; otherwise, if no document matches, no mutation and no
document returned; else the matching document is updated field-wise and
the post-update document is returned. -/
def findByIdAndUpdate (db : DocStore) (id : String) (b : UserBody) :
    Except String (Option StoredUser × DocStore) :=
  if isValidObjectId id then
    match db.find? (fun u => u.id == id) with
    | none => .ok (none, db)
    | some u =>
        .ok (some (applyUpdate b u),
             db.map (fun v => if v.id == id then applyUpdate b u else v))
  else .error ("CastError: " ++ id)

/-- `User.deleteOne({ _id: id })`: CastError on a malformed id; otherwise
removes the first matching document and reports the deletedCount. -/
def deleteOne (db : DocStore) (id : String) : Except String (Nat × DocStore) :=
  if isValidObjectId id then
    match db.find? (fun u => u.id == id) with
    | some _ => .ok (1, db.eraseP (fun u => u.id == id))
    | none => .ok (0, db)
  else .error ("CastError: " ++ id)

/-! ## Object store model (S3) -/

/-- An object stored in a bucket: key, payload bytes, content type. -/
structure S3Object where
  key : String
  bytes : List Nat
  contentType : String
deriving Repr, DecidableEq

/-- Serialization of one entry of listObjectsV2's Contents. -/
def S3Object.toJval (o : S3Object) : Jval :=
  .obj [("Key", Jval.str o.key), ("Size", Jval.num o.bytes.length)]

/-- A bucket: its name and its objects. -/
structure S3Bucket where
  name : String
  objects : List S3Object
deriving Repr, DecidableEq

/-- The object store: the account's buckets. -/
abbrev S3State := List S3Bucket

/-- `s3.listObjectsV2({ Bucket })`: the bucket's objects (an empty list for
an existing empty bucket), or a NoSuchBucket error for a missing bucket. -/
def listObjectsV2 (s : S3State) (bucket : String) : Except String (List S3Object) :=
  match s.find? (fun b => b.name == bucket) with
  | some b => .ok b.objects
  | none => .error ("NoSuchBucket: " ++ bucket)

/-- `s3.deleteObject({ Bucket, Key })`: succeeds whenever the bucket exists,
whether or not the key was present (S3 delete is idempotent); removes the
key's object if present. -/
def s3deleteObject (s : S3State) (bucket key : String) : Except String S3State :=
  match s.find? (fun b => b.name == bucket) with
  | some _ =>
      .ok (s.map (fun b =>
        if b.name == bucket then { b with objects := b.objects.filter (fun o => o.key != key) } else b))
  | none => .error ("NoSuchBucket: " ++ bucket)

/-! ## Route handlers

Each handler takes the outcome of its single awaited collaborator call
(`Except` error = the promise rejecting, caught by the handler's catch
block) and yields its trace of actions, translated line by line from
src/server.js. -/

/-- GET /mongodb/testar-conexao (src/server.js lines 46-60).  Note both of
its bodies go through `res.send` with a plain string, not `res.json`. -/
def handleTestarConexao (req : Request) (outcome : Except String (Option StoredUser)) :
    List HAction :=
  match outcome with
  | .ok user =>
      [.log (.info "Teste conexão MongoDB OK" (some req)),
       .respond { status := 200,
                  body := .text (if user.isSome then
                      "Conexão com MongoDB OK - Usuário encontrado."
                    else
                      "Conexão com MongoDB OK - Nenhum usuário encontrado.") }]
  | .error e =>
      [.log (.error "Erro no teste MongoDB" (some req) (some e)),
       .respond { status := 500, body := .text "Erro na conexão com o MongoDB." }]

/-- POST /usuarios (src/server.js lines 63-73): save the new user, 201 with
the saved record; on failure log then 500 generic. -/
def handleCreateUser (req : Request) (outcome : Except String StoredUser) : List HAction :=
  match outcome with
  | .ok user =>
      [.log (.info "Usuário criado" (some req)),
       .respond { status := 201, body := .json user.toJval }]
  | .error e =>
      [.log (.error "Erro ao criar usuário" (some req) (some e)),
       .respond { status := 500, body := errBody "Erro ao criar usuário." }]

/-- GET /usuarios (src/server.js lines 75-83). -/
def handleListUsers (req : Request) (outcome : Except String (List StoredUser)) : List HAction :=
  match outcome with
  | .ok users =>
      [.respond { status := 200, body := .json (.arr (users.map StoredUser.toJval)) }]
  | .error e =>
      [.log (.error "Erro ao listar usuários" (some req) (some e)),
       .respond { status := 500, body := errBody "Erro ao listar usuários." }]

/-- GET /usuarios/:id (src/server.js lines 85-94). -/
def handleGetUser (req : Request) (outcome : Except String (Option StoredUser)) : List HAction :=
  match outcome with
  | .ok none => [.respond { status := 404, body := errBody "Usuário não encontrado." }]
  | .ok (some user) => [.respond { status := 200, body := .json user.toJval }]
  | .error e =>
      [.log (.error "Erro ao buscar usuário" (some req) (some e)),
       .respond { status := 500, body := errBody "Erro ao buscar usuário." }]

/-- PUT /usuarios/:id (src/server.js lines 96-105). -/
def handleUpdateUser (req : Request) (outcome : Except String (Option StoredUser)) : List HAction :=
  match outcome with
  | .ok none => [.respond { status := 404, body := errBody "Usuário não encontrado." }]
  | .ok (some user) => [.respond { status := 200, body := .json user.toJval }]
  | .error e =>
      [.log (.error "Erro ao atualizar usuário" (some req) (some e)),
       .respond { status := 500, body := errBody "Erro ao atualizar usuário." }]

/-- DELETE /usuarios/:id (src/server.js lines 107-116): 404 when
deletedCount is 0, else 200 with a confirmation message. -/
def handleDeleteUser (req : Request) (outcome : Except String Nat) : List HAction :=
  match outcome with
  | .ok count =>
      if count = 0 then
        [.respond { status := 404, body := errBody "Usuário não encontrado." }]
      else
        [.respond { status := 200,
                    body := .json (.obj [("message", .str "Usuário removido com sucesso.")]) }]
  | .error e =>
      [.log (.error "Erro ao remover usuário" (some req) (some e)),
       .respond { status := 500, body := errBody "Erro ao remover usuário." }]

/-- GET /buckets (src/server.js lines 127-135): data.Buckets is passed
through to res.json unchanged, as opaque descriptors. -/
def handleListBuckets (req : Request) (outcome : Except String (List Jval)) : List HAction :=
  match outcome with
  | .ok buckets => [.respond { status := 200, body := .json (.arr buckets) }]
  | .error e =>
      [.log (.error "Erro ao listar buckets" (some req) (some e)),
       .respond { status := 500, body := errBody "Erro ao listar buckets." }]

/-- GET /buckets/:bucketName (src/server.js lines 138-147): data.Contents
serialized to the response. -/
def handleListObjects (req : Request) (outcome : Except String (List S3Object)) : List HAction :=
  match outcome with
  | .ok objects =>
      [.respond { status := 200, body := .json (.arr (objects.map S3Object.toJval)) }]
  | .error e =>
      [.log (.error "Erro ao listar objetos" (some req) (some e)),
       .respond { status := 500, body := errBody "Erro ao listar objetos." }]

/-- The file object multer's memory storage attaches to the request. -/
structure FileUpload where
  originalname : String
  buffer : List Nat
  mimetype : String
deriving Repr, DecidableEq

/-- POST /buckets/:bucketName/upload (src/server.js lines 151-169): 400
when no file was attached (before any store call); otherwise s3.upload
with Key = originalname, then 200 with confirmation + returned data, or
log + 500 on failure. -/
def handleUpload (req : Request) (bucketName : String) (file : Option FileUpload)
    (uploadFn : UploadParams → Except String Jval) : List HAction :=
  match file with
  | none => [.respond { status := 400, body := errBody "Nenhum arquivo enviado." }]
  | some f =>
      let params : UploadParams :=
        { bucket := bucketName, key := f.originalname,
          bytes := f.buffer, contentType := f.mimetype }
      match uploadFn params with
      | .ok data =>
          [.uploadCall params,
           .respond { status := 200,
                      body := .json (.obj [("message", .str "Upload concluído."), ("data", data)]) }]
      | .error e =>
          [.uploadCall params,
           .log (.error "Erro no upload" (some req) (some e)),
           .respond { status := 500, body := errBody "Erro ao enviar arquivo." }]

/-- DELETE /buckets/:bucketName/file/:fileName (src/server.js lines
172-186): 200 with confirmation on store success, log + 500 on failure;
there is no 404 branch. -/
def handleDeleteObject (req : Request) (outcome : Except String Unit) : List HAction :=
  match outcome with
  | .ok _ =>
      [.respond { status := 200, body := .json (.obj [("message", .str "Arquivo removido.")]) }]
  | .error e =>
      [.log (.error "Erro ao remover arquivo" (some req) (some e)),
       .respond { status := 500, body := errBody "Erro ao remover arquivo." }]

/-! ## Handlers composed with the store models -/

/-- GET /usuarios/:id run against a concrete collection. -/
def runGetUser (req : Request) (db : DocStore) (id : String) : List HAction :=
  handleGetUser req (findById db id)

/-- PUT /usuarios/:id run against a concrete collection; also yields the
collection after the request. -/
def runUpdateUser (req : Request) (db : DocStore) (id : String) (b : UserBody) :
    List HAction × DocStore :=
  match findByIdAndUpdate db id b with
  | .ok (u, db') => (handleUpdateUser req (.ok u), db')
  | .error e => (handleUpdateUser req (.error e), db)

/-- DELETE /usuarios/:id run against a concrete collection; also yields the
collection after the request. -/
def runDeleteUser (req : Request) (db : DocStore) (id : String) :
    List HAction × DocStore :=
  match deleteOne db id with
  | .ok (n, db') => (handleDeleteUser req (.ok n), db')
  | .error e => (handleDeleteUser req (.error e), db)

/-- GET /buckets/:bucketName run against a concrete object store. -/
def runListObjects (req : Request) (s : S3State) (bucket : String) : List HAction :=
  handleListObjects req (listObjectsV2 s bucket)

/-- DELETE /buckets/:bucketName/file/:fileName run against a concrete
object store; also yields the store after the request. -/
def runDeleteObject (req : Request) (s : S3State) (bucket key : String) :
    List HAction × S3State :=
  match s3deleteObject s bucket key with
  | .ok s' => (handleDeleteObject req (.ok ()), s')
  | .error e => (handleDeleteObject req (.error e), s)

/-! ## Helper lemmas -/

/-- A list with exactly one element satisfying `p` has a first such element. -/
theorem exists_find?_of_countP_one {α} (p : α → Bool) (l : List α)
    (h : l.countP p = 1) : ∃ a, l.find? p = some a := by
  induction l with
  | nil => simp at h
  | cons a t ih =>
      by_cases hp : p a
      · exact ⟨a, List.find?_cons_of_pos t hp⟩
      · rw [List.countP_cons_of_neg _ _ hp] at h
        obtain ⟨x, hx⟩ := ih h
        exact ⟨x, by rw [List.find?_cons_of_neg t hp, hx]⟩

/-- After erasing the unique element satisfying `p`, none is left. -/
theorem find?_eraseP_of_countP_one {α} (p : α → Bool) (l : List α)
    (h : l.countP p = 1) : (l.eraseP p).find? p = none := by
  induction l with
  | nil => simp [List.eraseP]
  | cons a t ih =>
      by_cases hp : p a
      · rw [List.eraseP_cons_of_pos (l := t) hp]
        rw [List.countP_cons_of_pos _ _ hp] at h
        have h0 : t.countP p = 0 := by omega
        exact List.find?_eq_none.mpr fun x hx => by
          simpa using (List.countP_eq_zero.mp h0) x hx
      · rw [List.eraseP_cons_of_neg (l := t) hp]
        rw [List.countP_cons_of_neg _ _ hp] at h
        rw [List.find?_cons_of_neg _ hp]
        exact ih h

/-- `find?` by name commutes with mapping a name-preserving function. -/
theorem find?_map_of_name_eq (s : S3State) (bucket : String) (f : S3Bucket → S3Bucket)
    (hf : ∀ b, (f b).name = b.name) (bb : S3Bucket)
    (h : s.find? (fun b => b.name == bucket) = some bb) :
    (s.map f).find? (fun b => b.name == bucket) = some (f bb) := by
  induction s with
  | nil => simp at h
  | cons a t ih =>
      by_cases hp : (a.name == bucket) = true
      · rw [List.find?_cons_of_pos t hp] at h
        injection h with h; subst h
        rw [List.map_cons, List.find?_cons_of_pos _ (by rw [hf]; exact hp)]
      · rw [List.find?_cons_of_neg t hp] at h
        rw [List.map_cons, List.find?_cons_of_neg _ (by rw [hf]; exact hp)]
        exact ih h

/-! ## Claims -/

/-- Claim C2: for every route handler and every request, on every code path
(success, not-found, missing file, or caught collaborator failure) the
handler emits exactly one terminal HTTP response — no path leaves the
request unanswered and no path responds twice. -/
theorem c2_exactly_one_response :
    (∀ req outcome, (responsesOf (handleTestarConexao req outcome)).length = 1) ∧
    (∀ req outcome, (responsesOf (handleCreateUser req outcome)).length = 1) ∧
    (∀ req outcome, (responsesOf (handleListUsers req outcome)).length = 1) ∧
    (∀ req outcome, (responsesOf (handleGetUser req outcome)).length = 1) ∧
    (∀ req outcome, (responsesOf (handleUpdateUser req outcome)).length = 1) ∧
    (∀ req outcome, (responsesOf (handleDeleteUser req outcome)).length = 1) ∧
    (∀ req outcome, (responsesOf (handleListBuckets req outcome)).length = 1) ∧
    (∀ req outcome, (responsesOf (handleListObjects req outcome)).length = 1) ∧
    (∀ req bucketName file uploadFn,
        (responsesOf (handleUpload req bucketName file uploadFn)).length = 1) ∧
    (∀ req outcome, (responsesOf (handleDeleteObject req outcome)).length = 1) := by
  refine ⟨?_, ?_, ?_, ?_, ?_, ?_, ?_, ?_, ?_, ?_⟩
  · intro req outcome; cases outcome <;> rfl
  · intro req outcome; cases outcome <;> rfl
  · intro req outcome; cases outcome <;> rfl
  · intro req outcome
    cases outcome with
    | error e => rfl
    | ok o => cases o <;> rfl
  · intro req outcome
    cases outcome with
    | error e => rfl
    | ok o => cases o <;> rfl
  · intro req outcome
    cases outcome with
    | error e => rfl
    | ok n => cases n <;> rfl
  · intro req outcome; cases outcome <;> rfl
  · intro req outcome; cases outcome <;> rfl
  · intro req bucketName file uploadFn
    cases file with
    | none => rfl
    | some f =>
        simp only [handleUpload]
        split <;> rfl
  · intro req outcome; cases outcome <;> rfl

/-- Claim C3: listing the objects of a bucket that exists but is empty
returns HTTP 200 with an empty JSON array as the body. -/
theorem c3_empty_bucket_lists_empty (req : Request) (s : S3State) (bucket : String)
    (bb : S3Bucket) (hfind : s.find? (fun b => b.name == bucket) = some bb)
    (hempty : bb.objects = []) :
    runListObjects req s bucket
      = [.respond { status := 200, body := .json (.arr []) }] := by
  simp [runListObjects, listObjectsV2, hfind, hempty, handleListObjects]

/-- Witness for C3: a one-bucket store whose bucket is empty. -/
theorem c3_empty_bucket_lists_empty_witness :
    runListObjects { method := "GET", path := "/buckets/meu-bucket" }
        [{ name := "meu-bucket", objects := [] }] "meu-bucket"
      = [.respond { status := 200, body := .json (.arr []) }] :=
  c3_empty_bucket_lists_empty _ _ _ { name := "meu-bucket", objects := [] } rfl rfl

/-- Claim C4: an upload request without a file gets 400 with the
"no file sent" body and triggers no store call; with a file attached and a
succeeding store call it gets 200 with the confirmation and the
store-returned data, the upload call using the supplied filename as key. -/
theorem c4_upload_contract :
    (∀ req bucketName uploadFn,
        handleUpload req bucketName none uploadFn
          = [.respond { status := 400, body := errBody "Nenhum arquivo enviado." }] ∧
        uploadCallsOf (handleUpload req bucketName none uploadFn) = []) ∧
    (∀ req bucketName (f : FileUpload) uploadFn data,
        uploadFn { bucket := bucketName, key := f.originalname,
                   bytes := f.buffer, contentType := f.mimetype } = .ok data →
        handleUpload req bucketName (some f) uploadFn
          = [.uploadCall { bucket := bucketName, key := f.originalname,
                           bytes := f.buffer, contentType := f.mimetype },
             .respond { status := 200,
                        body := .json (.obj [("message", .str "Upload concluído."),
                                             ("data", data)]) }]) := by
  constructor
  · intro req bucketName uploadFn
    exact ⟨rfl, rfl⟩
  · intro req bucketName f uploadFn data h
    simp only [handleUpload]
    rw [h]

/-- Witness for C4: a concrete file and an always-succeeding store. -/
theorem c4_upload_contract_witness :
    handleUpload { method := "POST", path := "/buckets/meu-bucket/upload" }
        "meu-bucket" (some { originalname := "a.txt", buffer := [104, 105], mimetype := "text/plain" })
        (fun _ => .ok (.str "etag"))
      = [.uploadCall { bucket := "meu-bucket", key := "a.txt",
                       bytes := [104, 105], contentType := "text/plain" },
         .respond { status := 200,
                    body := .json (.obj [("message", .str "Upload concluído."),
                                         ("data", .str "etag")]) }] :=
  c4_upload_contract.2 { method := "POST", path := "/buckets/meu-bucket/upload" }
    "meu-bucket" { originalname := "a.txt", buffer := [104, 105], mimetype := "text/plain" }
    (fun _ => .ok (.str "etag")) (.str "etag") rfl

/-- Claim C10: the create-user handler never answers 400 (its status is 201
on store success and 500 on store failure, whatever the body was); the
schema persists only nome and email, discarding any extra supplied fields;
and on store success it answers 201 with the saved record, whose JSON
carries the assigned identifier. -/
theorem c10_create_user_no_validation :
    (∀ req outcome,
        statusesOf (handleCreateUser req outcome) = [201] ∨
        statusesOf (handleCreateUser req outcome) = [500]) ∧
    (∀ b extra newId, newUser { b with extra := extra } newId = newUser b newId) ∧
    (∀ b newId, (newUser b newId).id = newId ∧
        (newUser b newId).nome = b.nome ∧ (newUser b newId).email = b.email) ∧
    (∀ req b newId,
        handleCreateUser req (.ok (newUser b newId))
          = [.log (.info "Usuário criado" (some req)),
             .respond { status := 201, body := .json (newUser b newId).toJval }] ∧
        (newUser b newId).toJval
          = .obj ([("_id", Jval.str newId)]
              ++ (match b.nome with | some n => [("nome", Jval.str n)] | none => [])
              ++ (match b.email with | some e => [("email", Jval.str e)] | none => []))) := by
  refine ⟨?_, ?_, ?_, ?_⟩
  · intro req outcome
    cases outcome with
    | ok u => exact Or.inl rfl
    | error e => exact Or.inr rfl
  · intro b extra newId; rfl
  · intro b newId; exact ⟨rfl, rfl, rfl⟩
  · intro req b newId; exact ⟨rfl, rfl⟩

/-- Claim C5: delete-user answers 404 when the store reports zero deleted
rows and 200 with a confirmation when it deleted the record; consequently,
deleting an existing user twice yields 200 then 404. -/
theorem c5_delete_user_twice :
    (∀ req, handleDeleteUser req (.ok 0)
        = [.respond { status := 404, body := errBody "Usuário não encontrado." }]) ∧
    (∀ req n, n ≠ 0 → handleDeleteUser req (.ok n)
        = [.respond { status := 200,
                      body := .json (.obj [("message", .str "Usuário removido com sucesso.")]) }]) ∧
    (∀ req (db : DocStore) id, isValidObjectId id = true →
        db.countP (fun u => u.id == id) = 1 →
        statusesOf (runDeleteUser req db id).1 = [200] ∧
        statusesOf (runDeleteUser req (runDeleteUser req db id).2 id).1 = [404]) := by
  refine ⟨fun req => rfl, ?_, ?_⟩
  · intro req n hn
    cases n with
    | zero => exact absurd rfl hn
    | succ m => rfl
  · intro req db id hv hc
    obtain ⟨u, hu⟩ := exists_find?_of_countP_one (fun u => u.id == id) db hc
    have h1 : deleteOne db id = .ok (1, db.eraseP (fun u => u.id == id)) := by
      simp [deleteOne, hv, hu]
    have h2 : runDeleteUser req db id
        = (handleDeleteUser req (.ok 1), db.eraseP (fun u => u.id == id)) := by
      simp [runDeleteUser, h1]
    have hnone : (db.eraseP (fun u => u.id == id)).find? (fun u => u.id == id) = none :=
      find?_eraseP_of_countP_one _ _ hc
    have h3 : deleteOne (db.eraseP (fun u => u.id == id)) id
        = .ok (0, db.eraseP (fun u => u.id == id)) := by
      simp [deleteOne, hv, hnone]
    refine ⟨by rw [h2]; rfl, ?_⟩
    rw [h2]
    have h4 : runDeleteUser req (db.eraseP (fun u => u.id == id)) id
        = (handleDeleteUser req (.ok 0), db.eraseP (fun u => u.id == id)) := by
      simp [runDeleteUser, h3]
    rw [h4]
    rfl

/-- Witness for C5: a one-user collection, deleting the same id twice. -/
theorem c5_delete_user_twice_witness :
    statusesOf (runDeleteUser { method := "DELETE", path := "/usuarios/aaaaaaaaaaaaaaaaaaaaaaaa" }
        [{ id := "aaaaaaaaaaaaaaaaaaaaaaaa", nome := some "Ana", email := some "ana@x.com" }]
        "aaaaaaaaaaaaaaaaaaaaaaaa").1 = [200] ∧
    statusesOf (runDeleteUser { method := "DELETE", path := "/usuarios/aaaaaaaaaaaaaaaaaaaaaaaa" }
        (runDeleteUser { method := "DELETE", path := "/usuarios/aaaaaaaaaaaaaaaaaaaaaaaa" }
          [{ id := "aaaaaaaaaaaaaaaaaaaaaaaa", nome := some "Ana", email := some "ana@x.com" }]
          "aaaaaaaaaaaaaaaaaaaaaaaa").2
        "aaaaaaaaaaaaaaaaaaaaaaaa").1 = [404] :=
  c5_delete_user_twice.2.2 { method := "DELETE", path := "/usuarios/aaaaaaaaaaaaaaaaaaaaaaaa" }
    [{ id := "aaaaaaaaaaaaaaaaaaaaaaaa", nome := some "Ana", email := some "ana@x.com" }]
    "aaaaaaaaaaaaaaaaaaaaaaaa" (by decide) (by decide)

/-- Claim C6: delete-object answers 200 with a confirmation whenever the
store call succeeds, irrespective of the key's presence — repeating the
delete still answers 200 — and the handler has no 404 outcome at all
(its status is always 200 or 500). -/
theorem c6_delete_object_idempotent :
    (∀ req (outcome : Except String Unit),
        statusesOf (handleDeleteObject req outcome) = [200] ∨
        statusesOf (handleDeleteObject req outcome) = [500]) ∧
    (∀ req (s : S3State) bucket key bb,
        s.find? (fun b => b.name == bucket) = some bb →
        (runDeleteObject req s bucket key).1
          = [.respond { status := 200,
                        body := .json (.obj [("message", .str "Arquivo removido.")]) }] ∧
        (runDeleteObject req (runDeleteObject req s bucket key).2 bucket key).1
          = [.respond { status := 200,
                        body := .json (.obj [("message", .str "Arquivo removido.")]) }]) := by
  constructor
  · intro req outcome
    cases outcome with
    | ok u => exact Or.inl rfl
    | error e => exact Or.inr rfl
  · intro req s bucket key bb hfind
    have hrun : ∀ (s' : S3State) (bb' : S3Bucket),
        s'.find? (fun b => b.name == bucket) = some bb' →
        (runDeleteObject req s' bucket key).1
          = [.respond { status := 200,
                        body := .json (.obj [("message", .str "Arquivo removido.")]) }] := by
      intro s' bb' hf'
      have hdel : s3deleteObject s' bucket key
          = .ok (s'.map (fun b =>
              if b.name == bucket then
                { b with objects := b.objects.filter (fun o => o.key != key) } else b)) := by
        simp only [s3deleteObject]
        rw [hf']
      simp only [runDeleteObject]
      rw [hdel]
      rfl
    have h1 : s3deleteObject s bucket key
        = .ok (s.map (fun b =>
            if b.name == bucket then
              { b with objects := b.objects.filter (fun o => o.key != key) } else b)) := by
      simp only [s3deleteObject]
      rw [hfind]
    have h2 : (runDeleteObject req s bucket key).2
        = s.map (fun b =>
            if b.name == bucket then
              { b with objects := b.objects.filter (fun o => o.key != key) } else b) := by
      simp only [runDeleteObject]
      rw [h1]
    have hf : ∀ b : S3Bucket,
        ((fun b => if b.name == bucket then
            { b with objects := b.objects.filter (fun o => o.key != key) } else b) b).name
          = b.name := by
      intro b
      by_cases h : (b.name == bucket) = true <;> simp [h]
    refine ⟨hrun s bb hfind, ?_⟩
    rw [h2]
    exact hrun _ _ (find?_map_of_name_eq s bucket _ hf bb hfind)

/-- Witness for C6: deleting the same key twice from an existing bucket. -/
theorem c6_delete_object_idempotent_witness :
    (runDeleteObject { method := "DELETE", path := "/buckets/meu-bucket/file/a.txt" }
        [{ name := "meu-bucket", objects := [{ key := "a.txt", bytes := [104], contentType := "text/plain" }] }]
        "meu-bucket" "a.txt").1
      = [.respond { status := 200,
                    body := .json (.obj [("message", .str "Arquivo removido.")]) }] ∧
    (runDeleteObject { method := "DELETE", path := "/buckets/meu-bucket/file/a.txt" }
        (runDeleteObject { method := "DELETE", path := "/buckets/meu-bucket/file/a.txt" }
          [{ name := "meu-bucket", objects := [{ key := "a.txt", bytes := [104], contentType := "text/plain" }] }]
          "meu-bucket" "a.txt").2
        "meu-bucket" "a.txt").1
      = [.respond { status := 200,
                    body := .json (.obj [("message", .str "Arquivo removido.")]) }] :=
  c6_delete_object_idempotent.2 { method := "DELETE", path := "/buckets/meu-bucket/file/a.txt" }
    [{ name := "meu-bucket", objects := [{ key := "a.txt", bytes := [104], contentType := "text/plain" }] }]
    "meu-bucket" "a.txt"
    { name := "meu-bucket", objects := [{ key := "a.txt", bytes := [104], contentType := "text/plain" }] }
    rfl

/-- Claim C7: update-user on an existing record overwrites only the
supplied fields, keeps the unsupplied ones, answers 200 with the
post-update record, and leaves every other record in place; on a
non-existent (but well-formed) id it answers 404 and mutates nothing. -/
theorem c7_update_user_frame (req : Request) (db : DocStore) (id : String) (b : UserBody) :
    (∀ u, isValidObjectId id = true →
      db.find? (fun v => v.id == id) = some u →
      (runUpdateUser req db id b).1
        = [.respond { status := 200, body := .json (applyUpdate b u).toJval }] ∧
      (runUpdateUser req db id b).2
        = db.map (fun v => if v.id == id then applyUpdate b u else v) ∧
      (b.nome = none → (applyUpdate b u).nome = u.nome) ∧
      (∀ n, b.nome = some n → (applyUpdate b u).nome = some n) ∧
      (b.email = none → (applyUpdate b u).email = u.email) ∧
      (∀ m, b.email = some m → (applyUpdate b u).email = some m) ∧
      (applyUpdate b u).id = u.id ∧
      (∀ v, v ∈ db → v.id ≠ id → v ∈ (runUpdateUser req db id b).2)) ∧
    (isValidObjectId id = true →
      db.find? (fun v => v.id == id) = none →
      (runUpdateUser req db id b).1
        = [.respond { status := 404, body := errBody "Usuário não encontrado." }] ∧
      (runUpdateUser req db id b).2 = db) := by
  constructor
  · intro u hv hfind
    have h1 : findByIdAndUpdate db id b
        = .ok (some (applyUpdate b u),
               db.map (fun v => if v.id == id then applyUpdate b u else v)) := by
      simp only [findByIdAndUpdate, hv, if_true]
      rw [hfind]
    have h2 : runUpdateUser req db id b
        = (handleUpdateUser req (.ok (some (applyUpdate b u))),
           db.map (fun v => if v.id == id then applyUpdate b u else v)) := by
      simp only [runUpdateUser]
      rw [h1]
    refine ⟨by rw [h2]; rfl, by rw [h2], ?_, ?_, ?_, ?_, rfl, ?_⟩
    · intro h; simp [applyUpdate, h]
    · intro n h; simp [applyUpdate, h]
    · intro h; simp [applyUpdate, h]
    · intro m h; simp [applyUpdate, h]
    · intro v hvmem hne
      rw [h2]
      have hb : (v.id == id) = false := beq_eq_false_iff_ne.mpr hne
      have heq : (fun w => if w.id == id then applyUpdate b u else w) v = v := by
        simp [hb]
      exact heq ▸ List.mem_map_of_mem _ hvmem
  · intro hv hfind
    have h1 : findByIdAndUpdate db id b = .ok (none, db) := by
      simp only [findByIdAndUpdate, hv, if_true]
      rw [hfind]
    have h2 : runUpdateUser req db id b = (handleUpdateUser req (.ok none), db) := by
      simp only [runUpdateUser]
      rw [h1]
    exact ⟨by rw [h2]; rfl, by rw [h2]⟩

/-- Witness for C7: a two-user collection, updating nome only of the first
user, and updating a well-formed but absent id. -/
theorem c7_update_user_frame_witness :
    (runUpdateUser { method := "PUT", path := "/usuarios/aaaaaaaaaaaaaaaaaaaaaaaa" }
        [{ id := "aaaaaaaaaaaaaaaaaaaaaaaa", nome := some "Ana", email := some "ana@x.com" },
         { id := "bbbbbbbbbbbbbbbbbbbbbbbb", nome := some "Bia", email := some "bia@x.com" }]
        "aaaaaaaaaaaaaaaaaaaaaaaa"
        { nome := some "Ana Maria", email := none, extra := [] }).1
      = [.respond { status := 200,
                    body := .json (applyUpdate { nome := some "Ana Maria", email := none, extra := [] }
                      { id := "aaaaaaaaaaaaaaaaaaaaaaaa", nome := some "Ana", email := some "ana@x.com" }).toJval }] ∧
    (runUpdateUser { method := "PUT", path := "/usuarios/cccccccccccccccccccccccc" }
        [{ id := "aaaaaaaaaaaaaaaaaaaaaaaa", nome := some "Ana", email := some "ana@x.com" },
         { id := "bbbbbbbbbbbbbbbbbbbbbbbb", nome := some "Bia", email := some "bia@x.com" }]
        "cccccccccccccccccccccccc"
        { nome := some "Ana Maria", email := none, extra := [] }).1
      = [.respond { status := 404, body := errBody "Usuário não encontrado." }] :=
  ⟨((c7_update_user_frame { method := "PUT", path := "/usuarios/aaaaaaaaaaaaaaaaaaaaaaaa" }
      [{ id := "aaaaaaaaaaaaaaaaaaaaaaaa", nome := some "Ana", email := some "ana@x.com" },
       { id := "bbbbbbbbbbbbbbbbbbbbbbbb", nome := some "Bia", email := some "bia@x.com" }]
      "aaaaaaaaaaaaaaaaaaaaaaaa"
      { nome := some "Ana Maria", email := none, extra := [] }).1
      { id := "aaaaaaaaaaaaaaaaaaaaaaaa", nome := some "Ana", email := some "ana@x.com" }
      (by decide) rfl).1,
   ((c7_update_user_frame { method := "PUT", path := "/usuarios/cccccccccccccccccccccccc" }
      [{ id := "aaaaaaaaaaaaaaaaaaaaaaaa", nome := some "Ana", email := some "ana@x.com" },
       { id := "bbbbbbbbbbbbbbbbbbbbbbbb", nome := some "Bia", email := some "bia@x.com" }]
      "cccccccccccccccccccccccc"
      { nome := some "Ana Maria", email := none, extra := [] }).2
      (by decide) rfl).1⟩

/-- Claim C8: get-user-by-id answers 500 (with the generic error body,
after logging the CastError) on a malformed id, 404 on a well-formed id
matching no record, and 200 with the record on a match. -/
theorem c8_get_user_cases (req : Request) (db : DocStore) (id : String) :
    (isValidObjectId id = false →
      runGetUser req db id
        = [.log (.error "Erro ao buscar usuário" (some req) (some ("CastError: " ++ id))),
           .respond { status := 500, body := errBody "Erro ao buscar usuário." }]) ∧
    (isValidObjectId id = true →
      db.find? (fun u => u.id == id) = none →
      runGetUser req db id
        = [.respond { status := 404, body := errBody "Usuário não encontrado." }]) ∧
    (∀ u, isValidObjectId id = true →
      db.find? (fun u => u.id == id) = some u →
      runGetUser req db id
        = [.respond { status := 200, body := .json u.toJval }]) := by
  refine ⟨?_, ?_, ?_⟩
  · intro h
    simp only [runGetUser, findById, h]
    rfl
  · intro hv hfind
    simp only [runGetUser, findById, hv, if_true]
    rw [hfind]
    rfl
  · intro u hv hfind
    simp only [runGetUser, findById, hv, if_true]
    rw [hfind]
    rfl

/-- Witness for C8: the three id shapes against a one-user collection. -/
theorem c8_get_user_cases_witness :
    runGetUser { method := "GET", path := "/usuarios/abc" }
        [{ id := "aaaaaaaaaaaaaaaaaaaaaaaa", nome := some "Ana", email := some "ana@x.com" }] "abc"
      = [.log (.error "Erro ao buscar usuário" (some { method := "GET", path := "/usuarios/abc" })
                 (some ("CastError: " ++ "abc"))),
         .respond { status := 500, body := errBody "Erro ao buscar usuário." }] ∧
    runGetUser { method := "GET", path := "/usuarios/bbbbbbbbbbbbbbbbbbbbbbbb" }
        [{ id := "aaaaaaaaaaaaaaaaaaaaaaaa", nome := some "Ana", email := some "ana@x.com" }]
        "bbbbbbbbbbbbbbbbbbbbbbbb"
      = [.respond { status := 404, body := errBody "Usuário não encontrado." }] ∧
    runGetUser { method := "GET", path := "/usuarios/aaaaaaaaaaaaaaaaaaaaaaaa" }
        [{ id := "aaaaaaaaaaaaaaaaaaaaaaaa", nome := some "Ana", email := some "ana@x.com" }]
        "aaaaaaaaaaaaaaaaaaaaaaaa"
      = [.respond { status := 200,
                    body := .json ({ id := "aaaaaaaaaaaaaaaaaaaaaaaa", nome := some "Ana",
                                     email := some "ana@x.com" : StoredUser }).toJval }] :=
  ⟨(c8_get_user_cases { method := "GET", path := "/usuarios/abc" }
      [{ id := "aaaaaaaaaaaaaaaaaaaaaaaa", nome := some "Ana", email := some "ana@x.com" }] "abc").1
      (by decide),
   (c8_get_user_cases { method := "GET", path := "/usuarios/bbbbbbbbbbbbbbbbbbbbbbbb" }
      [{ id := "aaaaaaaaaaaaaaaaaaaaaaaa", nome := some "Ana", email := some "ana@x.com" }]
      "bbbbbbbbbbbbbbbbbbbbbbbb").2.1 (by decide) (by decide),
   (c8_get_user_cases { method := "GET", path := "/usuarios/aaaaaaaaaaaaaaaaaaaaaaaa" }
      [{ id := "aaaaaaaaaaaaaaaaaaaaaaaa", nome := some "Ana", email := some "ana@x.com" }]
      "aaaaaaaaaaaaaaaaaaaaaaaa").2.2
      { id := "aaaaaaaaaaaaaaaaaaaaaaaa", nome := some "Ana", email := some "ana@x.com" }
      (by decide) rfl⟩

/-- Counterexample to C1 as stated: on a store error the connectivity-probe
handler does answer 500, but its error body is a plain-text string sent
through res.send, not a JSON error body. -/
theorem c1_counterexample :
    (responsesOf (handleTestarConexao { method := "GET", path := "/mongodb/testar-conexao" }
        (.error "ECONNREFUSED"))).map (fun r => (r.status, r.body.isJson))
      = [(500, false)] := rfl

/-- Claim C1 (amended): on a store error every handler first logs the event
with the request context and the underlying error detail and then answers
500 with a fixed generic body that does not depend on the error; the body
is the JSON object `{error: message}` for every handler except the
connectivity probe, whose generic body is a fixed plain-text string. -/
theorem c1_error_paths_uniform (req : Request) (e : String) :
    handleTestarConexao req (.error e)
      = [.log (.error "Erro no teste MongoDB" (some req) (some e)),
         .respond { status := 500, body := .text "Erro na conexão com o MongoDB." }] ∧
    handleCreateUser req (.error e)
      = [.log (.error "Erro ao criar usuário" (some req) (some e)),
         .respond { status := 500, body := errBody "Erro ao criar usuário." }] ∧
    handleListUsers req (.error e)
      = [.log (.error "Erro ao listar usuários" (some req) (some e)),
         .respond { status := 500, body := errBody "Erro ao listar usuários." }] ∧
    handleGetUser req (.error e)
      = [.log (.error "Erro ao buscar usuário" (some req) (some e)),
         .respond { status := 500, body := errBody "Erro ao buscar usuário." }] ∧
    handleUpdateUser req (.error e)
      = [.log (.error "Erro ao atualizar usuário" (some req) (some e)),
         .respond { status := 500, body := errBody "Erro ao atualizar usuário." }] ∧
    handleDeleteUser req (.error e)
      = [.log (.error "Erro ao remover usuário" (some req) (some e)),
         .respond { status := 500, body := errBody "Erro ao remover usuário." }] ∧
    handleListBuckets req (.error e)
      = [.log (.error "Erro ao listar buckets" (some req) (some e)),
         .respond { status := 500, body := errBody "Erro ao listar buckets." }] ∧
    handleListObjects req (.error e)
      = [.log (.error "Erro ao listar objetos" (some req) (some e)),
         .respond { status := 500, body := errBody "Erro ao listar objetos." }] ∧
    (∀ bucketName (f : FileUpload),
        handleUpload req bucketName (some f) (fun _ => .error e)
          = [.uploadCall { bucket := bucketName, key := f.originalname,
                           bytes := f.buffer, contentType := f.mimetype },
             .log (.error "Erro no upload" (some req) (some e)),
             .respond { status := 500, body := errBody "Erro ao enviar arquivo." }]) ∧
    handleDeleteObject req (.error e)
      = [.log (.error "Erro ao remover arquivo" (some req) (some e)),
         .respond { status := 500, body := errBody "Erro ao remover arquivo." }] :=
  ⟨rfl, rfl, rfl, rfl, rfl, rfl, rfl, rfl, fun _ _ => rfl, rfl⟩

/-- Counterexample to C9 as stated: the connectivity probe's 200 response
reporting "no record found" is a plain-text string, not JSON. -/
theorem c9_counterexample :
    (responsesOf (handleTestarConexao { method := "GET", path := "/mongodb/testar-conexao" }
        (.ok none))).map (fun r => (r.status, r.body.isJson))
      = [(200, false)] := rfl

/-- Claim C9 (amended): every response body of every route except the
connectivity probe is JSON, on every code path; the probe's bodies (its
200 responses and its 500 response) are plain-text strings. -/
theorem c9_bodies_json_except_probe :
    (∀ req outcome,
        (responsesOf (handleTestarConexao req outcome)).all (fun r => !r.body.isJson) = true) ∧
    (∀ req outcome,
        (responsesOf (handleCreateUser req outcome)).all (fun r => r.body.isJson) = true) ∧
    (∀ req outcome,
        (responsesOf (handleListUsers req outcome)).all (fun r => r.body.isJson) = true) ∧
    (∀ req outcome,
        (responsesOf (handleGetUser req outcome)).all (fun r => r.body.isJson) = true) ∧
    (∀ req outcome,
        (responsesOf (handleUpdateUser req outcome)).all (fun r => r.body.isJson) = true) ∧
    (∀ req outcome,
        (responsesOf (handleDeleteUser req outcome)).all (fun r => r.body.isJson) = true) ∧
    (∀ req outcome,
        (responsesOf (handleListBuckets req outcome)).all (fun r => r.body.isJson) = true) ∧
    (∀ req outcome,
        (responsesOf (handleListObjects req outcome)).all (fun r => r.body.isJson) = true) ∧
    (∀ req bucketName file uploadFn,
        (responsesOf (handleUpload req bucketName file uploadFn)).all
          (fun r => r.body.isJson) = true) ∧
    (∀ req outcome,
        (responsesOf (handleDeleteObject req outcome)).all (fun r => r.body.isJson) = true) := by
  refine ⟨?_, ?_, ?_, ?_, ?_, ?_, ?_, ?_, ?_, ?_⟩
  · intro req outcome; cases outcome <;> rfl
  · intro req outcome; cases outcome <;> rfl
  · intro req outcome; cases outcome <;> rfl
  · intro req outcome
    cases outcome with
    | error e => rfl
    | ok o => cases o <;> rfl
  · intro req outcome
    cases outcome with
    | error e => rfl
    | ok o => cases o <;> rfl
  · intro req outcome
    cases outcome with
    | error e => rfl
    | ok n => cases n <;> rfl
  · intro req outcome; cases outcome <;> rfl
  · intro req outcome; cases outcome <;> rfl
  · intro req bucketName file uploadFn
    cases file with
    | none => rfl
    | some f =>
        simp only [handleUpload]
        split <;> rfl
  · intro req outcome; cases outcome <;> rfl
